import Mathlib

/-!
Verification of the grid-target screening pipelines in
`find_grid_target.py` (ETF scan) and `find_grid_target_stock.py` (equity
scan).

Modelling conventions:
* pandas DataFrames of daily bars are `List Bar`; the Chinese column names
  of the source map to fields as 日期 ↦ `date`, 开盘 ↦ `openPrice`,
  最高 ↦ `high`, 最低 ↦ `low`, 收盘 ↦ `close`, 成交量 ↦ `volume`.
  Dates are `ℕ` (the source normalises dates to `YYYYMMDD` strings, whose
  lexicographic order is the numeric order).
* Float arithmetic is modelled exactly: all float expressions of the
  source are `ℚ`, except the ones that go through `numpy.std` (a square
  root) or combine with it, which live in `ℝ`.
* Python `round(x, d)` and `f"{x:.2f}"` are modelled as rounding to `d`
  decimal digits (half-up; the half-to-even tie rule of Python floats is
  irrelevant to every property proved here).
* Both metric functions return `None` at each of their hard filters; the
  embedding tags each `return None` site with a `Reject` constructor so
  that properties can talk about which gate fired.
-/

namespace GridScan

/-- One daily OHLCV row, as produced by the history fetchers after the
numeric coercion and `dropna` of `get_etf_hist_sina_safe` /
`get_stock_hist_sina_safe`. -/
structure Bar where
  date : ℕ
  openPrice : ℚ
  high : ℚ
  low : ℚ
  close : ℚ
  volume : ℚ
deriving Repr, DecidableEq

/-- `pandas.Series.mean`: arithmetic mean (sum divided by length). -/
def meanQ (l : List ℚ) : ℚ := l.sum / l.length

/-- `df.tail(20)`: the last 20 rows (all rows when fewer exist). -/
def tail20 {α : Type} (l : List α) : List α := l.drop (l.length - 20)

/-- `df.sort_values('日期')`. -/
def sortByDate (l : List Bar) : List Bar :=
  List.insertionSort (fun a b => a.date ≤ b.date) l

/-- Per-bar turnover, `df['成交额'] = df['成交量'] * df['收盘']`. -/
def turnover (b : Bar) : ℚ := b.volume * b.close

/-- `recent_20_days['成交额'].mean()` computed on the date-sorted frame. -/
def avgTurnover20 (df : List Bar) : ℚ :=
  meanQ ((tail20 (sortByDate df)).map turnover)

/-- The defined entries of `Series.rolling(w).mean()`: the mean of each
window of `w` consecutive values (the first `w - 1` rows are `NaN` in
pandas and are dropped by the subsequent `dropna`). -/
def rollingMean (w : ℕ) (l : List ℚ) : List ℚ :=
  (List.range (l.length + 1 - w)).map (fun j => meanQ ((l.drop j).take w))

/-- A bar of the trimmed frame, carrying its `MA120` value. -/
structure BarMA where
  bar : Bar
  ma : ℚ
deriving Repr, DecidableEq

/-- `df['MA120'] = df['收盘'].rolling(120).mean(); df = df.dropna()`:
drops the first 119 rows and pairs each remaining row with its
120-bar moving average. -/
def trim (l : List Bar) : List BarMA :=
  List.zipWith (fun b m => ⟨b, m⟩) (l.drop 119) (rollingMean 120 (l.map Bar.close))

/-- The `前收盘` column: `close.shift(1)` with the first row patched to its
own `开盘` (`df.loc[0, '前收盘'] = df.loc[0, '开盘']`). -/
def prevCloses (t : List BarMA) : List ℚ :=
  match t with
  | [] => []
  | b :: _ => b.bar.openPrice :: (t.map (fun x => x.bar.close)).dropLast

/-- The `日振幅` column: `(df['最高'] - df['最低']) / df['前收盘']`. -/
def ampList (t : List BarMA) : List ℚ :=
  List.zipWith (fun b p => (b.bar.high - b.bar.low) / p) t (prevCloses t)

/-- `avg_daily_amplitude = df['日振幅'].mean() * 100`. -/
def avgAmp (t : List BarMA) : ℚ := meanQ (ampList t) * 100

/-- `path_length = abs(df['收盘'] - df['前收盘']).sum()`. -/
def pathLength (t : List BarMA) : ℚ :=
  (List.zipWith (fun b p => |b.bar.close - p|) t (prevCloses t)).sum

/-- `df['收盘'].iloc[0]` (0 when the frame is empty). -/
def firstClose (t : List BarMA) : ℚ := ((t.head?).map (fun b => b.bar.close)).getD 0

/-- `df['收盘'].iloc[-1]` (0 when the frame is empty). -/
def lastClose (t : List BarMA) : ℚ := ((t.getLast?).map (fun b => b.bar.close)).getD 0

/-- `net_displacement = abs(df['收盘'].iloc[-1] - df['收盘'].iloc[0])`. -/
def netDisplacement (t : List BarMA) : ℚ := |lastClose t - firstClose t|

/-- `choppiness = 1.0 - (net_displacement / (path_length + 0.0001))`. -/
def choppiness (t : List BarMA) : ℚ :=
  1 - netDisplacement t / (pathLength t + 1 / 10000)

/-- The `MA120` column of the trimmed frame. -/
def maCol (t : List BarMA) : List ℚ := t.map BarMA.ma

/-- Sample variance (`ddof = 1`, as in `pandas.Series.std` squared). -/
def sampleVarQ (l : List ℚ) : ℚ :=
  (l.map (fun x => (x - meanQ l) * (x - meanQ l))).sum / ((l.length : ℚ) - 1)

/-- `scipy.stats.linregress(x, y).slope` for `x = arange(len(y))`:
the least-squares slope `Σ (x - x̄)(y - ȳ) / Σ (x - x̄)²`. -/
def lrSlope (ys : List ℚ) : ℚ :=
  (((List.range ys.length).zip ys).map
      (fun p => ((p.1 : ℚ) - ((ys.length : ℚ) - 1) / 2) * (p.2 - meanQ ys))).sum /
    ((List.range ys.length).map
      (fun i => ((i : ℚ) - ((ys.length : ℚ) - 1) / 2) *
        ((i : ℚ) - ((ys.length : ℚ) - 1) / 2))).sum

/-- `trend_slope_pct = abs(slope) / df['MA120'].mean() * 100`. -/
def trendSlopePct (t : List BarMA) : ℚ :=
  |lrSlope (maCol t)| / meanQ (maCol t) * 100

/-- `ma120_cv = df['MA120'].std() / df['MA120'].mean()` (the standard
deviation is a real square root, hence `ℝ`). -/
noncomputable def maCV (t : List BarMA) : ℝ :=
  Real.sqrt ((sampleVarQ (maCol t) : ℝ)) / ((meanQ (maCol t) : ℝ))

/-- `grid_score = (avg_daily_amplitude * choppiness) / (penalty + 0.1)`,
the composite scorer shared by both source files. -/
noncomputable def grid_score (amp chop penalty : ℝ) : ℝ :=
  amp * chop / (penalty + 1 / 10)

/-- Rounding to `d` decimal digits on `ℚ` (models Python `round` /
format strings on values that never leave exact arithmetic). -/
def roundQ (d : ℕ) (x : ℚ) : ℚ := (⌊x * 10 ^ d + 1 / 2⌋ : ℚ) / 10 ^ d

/-- Rounding to `d` decimal digits on `ℝ`. -/
noncomputable def roundR (d : ℕ) (x : ℝ) : ℝ := ((⌊x * 10 ^ d + 1 / 2⌋ : ℤ) : ℝ) / 10 ^ d

/-- The fields of the result dictionary common to both scanners:
score, amplitude %, choppiness, formatted trailing turnover (in units of
10⁸, two decimals), MA coefficient of variation and trend-slope penalty. -/
structure Record where
  score : ℝ
  amplitudePct : ℚ
  chop : ℚ
  turnoverYi : ℚ
  maCv : ℝ
  slopePct : ℚ

/-- The tag of the `return None` site that fired (the source returns a
bare `None` at each; the tags record which hard filter rejected). -/
inductive Reject where
  | insufficientWindow
  | lowTurnover
  | insufficientMAHistory
  | highTrendSlope
  | lowAmplitude
  | lowChoppiness
deriving Repr, DecidableEq

/-- The result dictionary of `calculate_grid_metrics` (ETF scan). -/
noncomputable def etfRecord (df : List Bar) : Record :=
  let t := trim (sortByDate df)
  { score := roundR 2 (grid_score (avgAmp t) (choppiness t) (maCV t + (trendSlopePct t : ℝ)))
  , amplitudePct := roundQ 2 (avgAmp t)
  , chop := roundQ 3 (choppiness t)
  , turnoverYi := roundQ 2 (avgTurnover20 df / 100000000)
  , maCv := roundR 4 (maCV t)
  , slopePct := roundQ 4 (trendSlopePct t) }

/-- The result dictionary of `calculate_stock_grid_metrics` (equity
scan); the formulas repeat those of the ETF scan verbatim, as in the
source. -/
noncomputable def stockRecord (df : List Bar) : Record :=
  let t := trim (sortByDate df)
  { score := roundR 2 (grid_score (avgAmp t) (choppiness t) (maCV t + (trendSlopePct t : ℝ)))
  , amplitudePct := roundQ 2 (avgAmp t)
  , chop := roundQ 3 (choppiness t)
  , turnoverYi := roundQ 2 (avgTurnover20 df / 100000000)
  , maCv := roundR 4 (maCV t)
  , slopePct := roundQ 4 (trendSlopePct t) }

/-- `calculate_grid_metrics` of `find_grid_target.py`: sort, liquidity
filter (trailing-20 mean turnover ≥ 5 × 10⁷), MA120 trim with minimum
120 remaining rows, amplitude filter (≥ 1.5 %), then the metrics
record. -/
noncomputable def calculate_grid_metrics (df : List Bar) : Except Reject Record :=
  if (tail20 (sortByDate df)).length < 20 then .error .insufficientWindow
  else if avgTurnover20 df < 50000000 then .error .lowTurnover
  else if (trim (sortByDate df)).length < 120 then .error .insufficientMAHistory
  else if avgAmp (trim (sortByDate df)) < 3 / 2 then .error .lowAmplitude
  else .ok (etfRecord df)

/-- `calculate_stock_grid_metrics` of `find_grid_target_stock.py`:
sort, liquidity filter (≥ 2 × 10⁸), MA120 trim, trend-slope veto
(> 0.05 rejected), amplitude filter (≥ 3 %), choppiness veto (< 0.90
rejected), then the metrics record. -/
noncomputable def calculate_stock_grid_metrics (df : List Bar) : Except Reject Record :=
  if (tail20 (sortByDate df)).length < 20 then .error .insufficientWindow
  else if avgTurnover20 df < 200000000 then .error .lowTurnover
  else if (trim (sortByDate df)).length < 120 then .error .insufficientMAHistory
  else if trendSlopePct (trim (sortByDate df)) > 1 / 20 then .error .highTrendSlope
  else if avgAmp (trim (sortByDate df)) < 3 then .error .lowAmplitude
  else if choppiness (trim (sortByDate df)) < 9 / 10 then .error .lowChoppiness
  else .ok (stockRecord df)

/-- The gate tag of a pipeline outcome (`none` when a record was
produced). -/
def rejectOf : Except Reject Record → Option Reject
  | .error e => some e
  | .ok _ => none

/-- Whether the pipeline produced a record. -/
def passes : Except Reject Record → Bool
  | .ok _ => true
  | .error _ => false

/-- Running sum of absolute consecutive differences, seeded with a
previous value: the shape of the `path_length` computation. -/
def adjAbsSum : ℚ → List ℚ → ℚ
  | _, [] => 0
  | p, x :: xs => |x - p| + adjAbsSum x xs

lemma sortByDate_length (l : List Bar) : (sortByDate l).length = l.length :=
  (List.perm_insertionSort _ l).length_eq

lemma tail20_length_of_ge {α : Type} (l : List α) (h : 20 ≤ l.length) :
    (tail20 l).length = 20 := by
  simp only [tail20, List.length_drop]; omega

lemma tail20_length_of_lt {α : Type} (l : List α) (h : l.length < 20) :
    (tail20 l).length = l.length := by
  simp only [tail20, List.length_drop]; omega

lemma trim_length (l : List Bar) : (trim l).length = l.length - 119 := by
  simp only [trim, rollingMean, List.length_zipWith, List.length_drop,
    List.length_map, List.length_range]
  omega

/-- The last element of a list, with the seed as fallback. -/
def lastD : ℚ → List ℚ → ℚ
  | p, [] => p
  | _, x :: xs => lastD x xs

lemma adjAbsSum_nonneg (p : ℚ) (xs : List ℚ) : 0 ≤ adjAbsSum p xs := by
  induction xs generalizing p with
  | nil => simp [adjAbsSum]
  | cons x xs ih =>
    have := ih x
    have := abs_nonneg (x - p)
    simp only [adjAbsSum]
    linarith

lemma adjAbsSum_ge (p : ℚ) (xs : List ℚ) :
    |lastD p xs - p| ≤ adjAbsSum p xs := by
  induction xs generalizing p with
  | nil => simp [adjAbsSum, lastD]
  | cons x xs ih =>
    have h1 : lastD p (x :: xs) = lastD x xs := rfl
    have h2 := abs_sub_le (lastD x xs) x p
    have h3 := ih x
    simp only [adjAbsSum, h1]
    linarith

lemma getLast?_getD_eq_lastD (xs : List ℚ) (p : ℚ) :
    xs.getLast?.getD p = lastD p xs := by
  induction xs generalizing p with
  | nil => rfl
  | cons x xs ih =>
    cases xs with
    | nil => rfl
    | cons y ys =>
      rw [List.getLast?_cons_cons]
      have h1 : lastD p (x :: y :: ys) = lastD x (y :: ys) := rfl
      rw [h1, ← ih x]
      cases h : (y :: ys).getLast? with
      | none => exact absurd (List.getLast?_eq_none_iff.mp h) (by simp)
      | some a => rfl

lemma zipWith_absDiff_sum (c : ℚ) (cs : List ℚ) :
    (List.zipWith (fun x q => |x - q|) cs (c :: cs.dropLast)).sum = adjAbsSum c cs := by
  induction cs generalizing c with
  | nil => simp [adjAbsSum]
  | cons x xs ih =>
    cases xs with
    | nil => simp [adjAbsSum]
    | cons y ys =>
      rw [List.dropLast_cons₂, List.zipWith_cons_cons, List.sum_cons, ih x]
      rfl

lemma pathLength_cons (b : BarMA) (bs : List BarMA) :
    pathLength (b :: bs) =
      |b.bar.close - b.bar.openPrice| +
        adjAbsSum b.bar.close (bs.map (fun x => x.bar.close)) := by
  have hz : pathLength (b :: bs) =
      (List.zipWith (fun x q => |x - q|) ((b :: bs).map (fun x => x.bar.close))
        (prevCloses (b :: bs))).sum := by
    rw [pathLength, List.zipWith_map_left]
  rw [hz, prevCloses]
  have := zipWith_absDiff_sum b.bar.openPrice ((b :: bs).map (fun x => x.bar.close))
  rw [this]
  simp only [List.map_cons, adjAbsSum]

lemma lastClose_cons (b : BarMA) (bs : List BarMA) :
    lastClose (b :: bs) = lastD b.bar.close (bs.map (fun x => x.bar.close)) := by
  have h1 : lastClose (b :: bs) =
      (((b :: bs).map (fun x => x.bar.close)).getLast?).getD 0 := by
    rw [lastClose, List.getLast?_map]
  rw [h1, List.map_cons, getLast?_getD_eq_lastD]
  rfl

lemma netDisplacement_nonneg (t : List BarMA) : 0 ≤ netDisplacement t :=
  abs_nonneg _

lemma netDisplacement_le_pathLength (t : List BarMA) :
    netDisplacement t ≤ pathLength t := by
  cases t with
  | nil => simp [netDisplacement, pathLength, firstClose, lastClose, prevCloses]
  | cons b bs =>
    rw [pathLength_cons]
    have hfirst : firstClose (b :: bs) = b.bar.close := by simp [firstClose]
    rw [netDisplacement, hfirst, lastClose_cons]
    have h1 := adjAbsSum_ge b.bar.close (bs.map (fun x => x.bar.close))
    have h2 := abs_nonneg (b.bar.close - b.bar.openPrice)
    linarith

/-- Claim C2: for every series evaluated by the choppiness computation
(first bar's previous close being its own open, as the code sets it) with
positive path length, `choppiness = 1 − net_displacement ∕ (path_length +
0.0001)` lies in `(0, 1]`, and equals `1` exactly when the last close
equals the first close. -/
theorem C2_choppiness_range (t : List BarMA) (hpos : 0 < pathLength t) :
    0 < choppiness t ∧ choppiness t ≤ 1 ∧
      (choppiness t = 1 ↔ lastClose t = firstClose t) := by
  have hle := netDisplacement_le_pathLength t
  have hnet := netDisplacement_nonneg t
  have hden : 0 < pathLength t + 1 / 10000 := by linarith
  refine ⟨?_, ?_, ?_⟩
  · have h1 : netDisplacement t / (pathLength t + 1 / 10000) < 1 :=
      (div_lt_one hden).2 (by linarith)
    rw [choppiness]
    linarith
  · have h1 : 0 ≤ netDisplacement t / (pathLength t + 1 / 10000) :=
      div_nonneg hnet hden.le
    rw [choppiness]
    linarith
  · rw [choppiness]
    constructor
    · intro h
      have h1 : netDisplacement t / (pathLength t + 1 / 10000) = 0 := by linarith
      have h2 : netDisplacement t = 0 := by
        rcases div_eq_zero_iff.mp h1 with h' | h'
        · exact h'
        · exact absurd h' hden.ne'
      rw [netDisplacement] at h2
      rw [abs_eq_zero, sub_eq_zero] at h2
      exact h2
    · intro h
      rw [netDisplacement, h, sub_self, abs_zero, zero_div, sub_zero]

/-- Concrete one-bar trimmed series for the C2 witness: open 9,
close 10, so the path length is 1 and the series is a round trip. -/
def C2bar : BarMA := ⟨⟨0, 9, 12, 8, 10, 5⟩, 10⟩

unseal Rat.add Rat.mul Rat.inv Rat.sub in
/-- Witness for C2 at the one-bar series `[C2bar]`. -/
theorem C2_choppiness_range_witness :
    0 < choppiness [C2bar] ∧ choppiness [C2bar] ≤ 1 ∧
      (choppiness [C2bar] = 1 ↔ lastClose [C2bar] = firstClose [C2bar]) :=
  C2_choppiness_range [C2bar] (by decide)

/-- Claim C4: with `score = amp × chop ∕ (penalty + 0.1)` and
`penalty ≥ 0`: the score is strictly increasing in amplitude at fixed
penalty and positive choppiness; strictly increasing in choppiness at
fixed penalty and positive amplitude; and strictly decreasing in penalty
at fixed positive product amp × chop. -/
theorem C4_score_monotonicity :
    (∀ a₁ a₂ c p : ℝ, 0 ≤ p → 0 < c → a₁ < a₂ →
      grid_score a₁ c p < grid_score a₂ c p) ∧
    (∀ a c₁ c₂ p : ℝ, 0 ≤ p → 0 < a → c₁ < c₂ →
      grid_score a c₁ p < grid_score a c₂ p) ∧
    (∀ a₁ c₁ a₂ c₂ p₁ p₂ : ℝ, 0 ≤ p₁ → p₁ < p₂ → a₁ * c₁ = a₂ * c₂ →
      0 < a₁ * c₁ → grid_score a₂ c₂ p₂ < grid_score a₁ c₁ p₁) := by
  refine ⟨?_, ?_, ?_⟩
  · intro a₁ a₂ c p hp hc h
    have hd : (0:ℝ) < p + 1 / 10 := by linarith
    rw [grid_score, grid_score]
    exact (div_lt_div_iff_of_pos_right hd).2 (mul_lt_mul_of_pos_right h hc)
  · intro a c₁ c₂ p hp ha h
    have hd : (0:ℝ) < p + 1 / 10 := by linarith
    rw [grid_score, grid_score]
    exact (div_lt_div_iff_of_pos_right hd).2 (mul_lt_mul_of_pos_left h ha)
  · intro a₁ c₁ a₂ c₂ p₁ p₂ hp₁ hlt hprod hpos
    rw [grid_score, grid_score, ← hprod]
    exact div_lt_div_of_pos_left hpos (by linarith) (by linarith)

/-- Witness for C4: all three monotonicity directions at concrete
reals. -/
theorem C4_score_monotonicity_witness :
    grid_score 1 2 3 < grid_score 5 2 3 ∧
      grid_score 2 1 3 < grid_score 2 4 3 ∧
      grid_score 2 3 1 < grid_score 2 3 0 :=
  ⟨C4_score_monotonicity.1 1 5 2 3 (by norm_num) (by norm_num) (by norm_num),
   C4_score_monotonicity.2.1 2 1 4 3 (by norm_num) (by norm_num) (by norm_num),
   C4_score_monotonicity.2.2 2 3 2 3 0 1 (by norm_num) (by norm_num) (by norm_num)
     (by norm_num)⟩

/-- Claim C5: any series with fewer than 20 bars is rejected by the
liquidity stage's window check (`len(recent_20_days) < 20`) in both
pipelines: no later metric is computed and no record is produced. -/
theorem C5_insufficient_window (df : List Bar) (h : df.length < 20) :
    rejectOf (calculate_grid_metrics df) = some Reject.insufficientWindow ∧
      rejectOf (calculate_stock_grid_metrics df) = some Reject.insufficientWindow := by
  have hs : (sortByDate df).length < 20 := by rw [sortByDate_length]; exact h
  have ht : (tail20 (sortByDate df)).length < 20 := by
    rw [tail20_length_of_lt _ hs]; exact hs
  constructor
  · rw [calculate_grid_metrics, if_pos ht]; rfl
  · rw [calculate_stock_grid_metrics, if_pos ht]; rfl

/-- Concrete 19-bar series for the C5 witness. -/
def C5series : List Bar :=
  (List.range 19).map (fun i => ⟨i, 1, 1, 1, 1, 1⟩)

/-- Witness for C5 at a concrete 19-bar series. -/
theorem C5_insufficient_window_witness :
    rejectOf (calculate_grid_metrics C5series) = some Reject.insufficientWindow ∧
      rejectOf (calculate_stock_grid_metrics C5series) = some Reject.insufficientWindow :=
  C5_insufficient_window C5series (by decide)

/-- Claim C3: with at least 20 bars, the liquidity gate rejects exactly
when the trailing-20 mean turnover is strictly below the threshold
(5 × 10⁷ for the ETF pipeline, 2 × 10⁸ for the equity pipeline); a mean
exactly at the threshold passes the gate. -/
theorem C3_liquidity_gate (df : List Bar) (h : 20 ≤ df.length) :
    (rejectOf (calculate_grid_metrics df) = some Reject.lowTurnover ↔
      avgTurnover20 df < 50000000) ∧
    (avgTurnover20 df = 50000000 →
      rejectOf (calculate_grid_metrics df) ≠ some Reject.lowTurnover) ∧
    (rejectOf (calculate_stock_grid_metrics df) = some Reject.lowTurnover ↔
      avgTurnover20 df < 200000000) ∧
    (avgTurnover20 df = 200000000 →
      rejectOf (calculate_stock_grid_metrics df) ≠ some Reject.lowTurnover) := by
  have hs : 20 ≤ (sortByDate df).length := by rw [sortByDate_length]; exact h
  have ht : ¬ (tail20 (sortByDate df)).length < 20 := by
    rw [tail20_length_of_ge _ hs]; omega
  have hETF : rejectOf (calculate_grid_metrics df) = some Reject.lowTurnover ↔
      avgTurnover20 df < 50000000 := by
    rw [calculate_grid_metrics, if_neg ht]
    by_cases hlt : avgTurnover20 df < 50000000
    · rw [if_pos hlt]; simp [rejectOf, hlt]
    · rw [if_neg hlt]; split_ifs <;> simp [rejectOf, hlt]
  have hStock : rejectOf (calculate_stock_grid_metrics df) = some Reject.lowTurnover ↔
      avgTurnover20 df < 200000000 := by
    rw [calculate_stock_grid_metrics, if_neg ht]
    by_cases hlt : avgTurnover20 df < 200000000
    · rw [if_pos hlt]; simp [rejectOf, hlt]
    · rw [if_neg hlt]; split_ifs <;> simp [rejectOf, hlt]
  refine ⟨hETF, fun heq hcon => ?_, hStock, fun heq hcon => ?_⟩
  · exact absurd (hETF.mp hcon) (by rw [heq]; exact lt_irrefl _)
  · exact absurd (hStock.mp hcon) (by rw [heq]; exact lt_irrefl _)

/-- Concrete 20-bar series whose trailing-20 mean turnover is exactly
the ETF threshold 5 × 10⁷ (close 100, volume 5 × 10⁵ each bar). -/
def C3series : List Bar :=
  (List.range 20).map (fun i => ⟨i, 100, 101, 99, 100, 500000⟩)

unseal Rat.add Rat.mul Rat.inv Rat.sub in
set_option maxRecDepth 100000 in
/-- Witness for C3: the boundary series meets the threshold exactly and
is not rejected by the liquidity gate. -/
theorem C3_liquidity_gate_witness :
    avgTurnover20 C3series = 50000000 ∧
      rejectOf (calculate_grid_metrics C3series) ≠ some Reject.lowTurnover :=
  ⟨by decide, (C3_liquidity_gate C3series (by decide)).2.1 (by decide)⟩

/-- Concrete 130-bar series with identical closes, zero amplitude
(high = low) and trailing-20 mean turnover 10⁹, above both liquidity
thresholds. -/
def C1series : List Bar :=
  (List.range 130).map (fun i => ⟨i, 100, 100, 100, 100, 10000000⟩)

unseal Rat.add Rat.mul Rat.inv Rat.sub in
set_option maxRecDepth 100000 in
/-- Counterexample to claim C1 as stated: the 130-bar flat series
satisfies every premiss of the claim, yet both pipelines reject it at
the moving-average history check (`len(df) < 120` after the MA120
trim), not at the amplitude gate — the amplitude filter is never
reached. -/
theorem C1_counterexample :
    C1series.length = 130 ∧
      (∀ b ∈ C1series, b.high = b.low) ∧
      (∀ b ∈ C1series, ∀ b' ∈ C1series, b.close = b'.close) ∧
      50000000 ≤ avgTurnover20 C1series ∧
      200000000 ≤ avgTurnover20 C1series ∧
      rejectOf (calculate_grid_metrics C1series) = some Reject.insufficientMAHistory ∧
      rejectOf (calculate_stock_grid_metrics C1series) = some Reject.insufficientMAHistory ∧
      Reject.insufficientMAHistory ≠ Reject.lowAmplitude := by
  decide

/-- Amended claim C1: a 130-bar series of identical closes and zero
daily amplitude whose trailing-20 mean turnover is at or above the
liquidity threshold is disqualified — but at the moving-average history
check (130 − 119 = 11 < 120 rows survive the MA120 trim), not at the
amplitude gate — and no record is produced. -/
theorem C1_amended (df : List Bar) (h130 : df.length = 130)
    (_hzero : ∀ b ∈ df, b.high = b.low)
    (_hconst : ∀ b ∈ df, ∀ b' ∈ df, b.close = b'.close) :
    (50000000 ≤ avgTurnover20 df →
      rejectOf (calculate_grid_metrics df) = some Reject.insufficientMAHistory) ∧
    (200000000 ≤ avgTurnover20 df →
      rejectOf (calculate_stock_grid_metrics df) = some Reject.insufficientMAHistory) := by
  have hs : (sortByDate df).length = 130 := by rw [sortByDate_length]; exact h130
  have hs20 : 20 ≤ (sortByDate df).length := by omega
  have ht : ¬ (tail20 (sortByDate df)).length < 20 := by
    rw [tail20_length_of_ge _ hs20]; omega
  have htr : (trim (sortByDate df)).length < 120 := by
    rw [trim_length, hs]; omega
  constructor
  · intro hT
    rw [calculate_grid_metrics, if_neg ht, if_neg (not_lt.mpr hT), if_pos htr]; rfl
  · intro hT
    rw [calculate_stock_grid_metrics, if_neg ht, if_neg (not_lt.mpr hT), if_pos htr]; rfl

unseal Rat.add Rat.mul Rat.inv Rat.sub in
set_option maxRecDepth 100000 in
/-- Witness for the amended C1 at the concrete 130-bar flat series. -/
theorem C1_amended_witness :
    rejectOf (calculate_grid_metrics C1series) = some Reject.insufficientMAHistory ∧
      rejectOf (calculate_stock_grid_metrics C1series) = some Reject.insufficientMAHistory := by
  have h := C1_amended C1series (by decide) (by decide) (by decide)
  exact ⟨h.1 (by decide), h.2 (by decide)⟩

/-- Claim C9: on any series that passes the gates of both pipelines, the
ETF metrics function and the equity metrics function return identical
results — same score, amplitude, choppiness, formatted turnover,
coefficient of variation and trend slope, at the same rounding — the
two differing only in gate thresholds and the equity-only vetoes. -/
theorem C9_pipelines_agree (df : List Bar)
    (h1 : passes (calculate_grid_metrics df) = true)
    (h2 : passes (calculate_stock_grid_metrics df) = true) :
    calculate_grid_metrics df = calculate_stock_grid_metrics df := by
  simp only [calculate_grid_metrics, calculate_stock_grid_metrics] at h1 h2 ⊢
  split_ifs at h1 h2 ⊢
  all_goals first
    | rfl
    | simp [passes] at h1 h2

/-- Concrete 239-bar series passing every gate of both pipelines:
closes alternate 10 / 12 (so MA120 is the constant 11 and the
least-squares slope is 0), high − low = 2 each bar, volume 10⁸. -/
def C9series : List Bar :=
  (List.range 239).map (fun i =>
    { date := i
      openPrice := if i % 2 = 0 then 10 else 12
      high := (if i % 2 = 0 then (10:ℚ) else 12) + 1
      low := (if i % 2 = 0 then (10:ℚ) else 12) - 1
      close := if i % 2 = 0 then 10 else 12
      volume := 100000000 })

unseal Rat.add Rat.mul Rat.inv Rat.sub in
set_option maxRecDepth 1000000 in
set_option maxHeartbeats 4000000 in
/-- Witness for C9: the concrete alternating series passes both
pipelines and the two results agree. -/
theorem C9_pipelines_agree_witness :
    passes (calculate_grid_metrics C9series) = true ∧
      calculate_grid_metrics C9series = calculate_stock_grid_metrics C9series :=
  ⟨by decide, C9_pipelines_agree C9series (by decide) (by decide)⟩

/-!  ## Object-identity model of the DataFrame operations

To settle the frame/effect claims, the Python objects are modelled
explicitly: a heap of DataFrame objects, with `df.sort_values(...)` and
`df.dropna().reset_index(...)` allocating fresh objects and column
assignments (`df['...'] = ...`, `df.loc[0, '...'] = ...`) mutating the
object they are applied to, in the statement order of the source. -/

/-- A pandas DataFrame object: the bar rows plus derived columns added
by assignment, in insertion order; a derived cell is `Option ℚ`, with
`none` standing for `NaN`. -/
structure Frame where
  bars : List Bar
  cols : List (String × List (Option ℚ))
deriving Repr, DecidableEq

/-- The heap of DataFrame objects; references are list indices. -/
abbrev Heap := List Frame

/-- Allocation of a fresh DataFrame object: returns the new heap and
the fresh reference. -/
def allocH (h : Heap) (f : Frame) : Heap × ℕ := (h ++ [f], h.length)

/-- In-place update of the object at reference `r` (no effect on a
dangling reference). -/
def updateF (h : Heap) (r : ℕ) (g : Frame → Frame) : Heap :=
  match h[r]? with
  | some f => h.set r (g f)
  | none => h

/-- `df['name'] = v` for a new column: append it to the object. -/
def addColH (h : Heap) (r : ℕ) (name : String) (v : List (Option ℚ)) : Heap :=
  updateF h r (fun f => ⟨f.bars, f.cols ++ [(name, v)]⟩)

/-- Overwrite of an existing column (the `df.loc[0, '前收盘'] = ...`
patch): replace the column of that name. -/
def setColH (h : Heap) (r : ℕ) (name : String) (v : List (Option ℚ)) : Heap :=
  updateF h r (fun f => ⟨f.bars, f.cols.map (fun p => if p.1 = name then (name, v) else p)⟩)

/-- The bar rows of the object a reference points to. -/
def barsAt (h : Heap) (r : ℕ) : List Bar := ((h[r]?).map Frame.bars).getD []

/-- The full `MA120` column before `dropna`: 119 leading `NaN`s then the
rolling means. -/
def maColumnFull (s : List Bar) : List (Option ℚ) :=
  List.replicate (min 119 s.length) none ++ (rollingMean 120 (s.map Bar.close)).map some

/-- The object allocated by `df.dropna().reset_index(drop=True)`:
trimmed rows with the already-present derived columns restricted to
them. -/
def trimmedFrame (s : List Bar) : Frame :=
  ⟨(trim s).map BarMA.bar,
   [("成交额", (trim s).map (fun x => some (turnover x.bar))),
    ("MA120", (trim s).map (fun x => some x.ma))]⟩

/-- The `前收盘` column as first assigned (`close.shift(1)`: leading
`NaN`). -/
def prevColInit (t : List BarMA) : List (Option ℚ) :=
  match t with
  | [] => []
  | _ :: _ => none :: ((t.map (fun x => x.bar.close)).dropLast.map some)

/-- The `前收盘` column after the `df.loc[0, '前收盘'] = df.loc[0, '开盘']`
patch. -/
def prevColPatched (t : List BarMA) : List (Option ℚ) := (prevCloses t).map some

/-- The `日振幅` column. -/
def ampColumn (t : List BarMA) : List (Option ℚ) := (ampList t).map some

/-- The heap effect of `calculate_grid_metrics(df)` called on the object
at reference `c`: statement-by-statement allocations and in-place column
writes of the source, stopping at whichever hard filter fires. -/
def etfHeapAfter (h : Heap) (c : ℕ) : Heap :=
  let s := sortByDate (barsAt h c)
  let a1 := allocH h ⟨s, []⟩
  let h2 := addColH a1.1 a1.2 "成交额" (s.map (fun b => some (turnover b)))
  if (tail20 s).length < 20 then h2
  else if meanQ ((tail20 s).map turnover) < 50000000 then h2
  else
    let h3 := addColH h2 a1.2 "MA120" (maColumnFull s)
    let a2 := allocH h3 (trimmedFrame s)
    if (trim s).length < 120 then a2.1
    else
      let h5 := addColH a2.1 a2.2 "前收盘" (prevColInit (trim s))
      let h6 := setColH h5 a2.2 "前收盘" (prevColPatched (trim s))
      addColH h6 a2.2 "日振幅" (ampColumn (trim s))

/-- `calculate_grid_metrics` with its heap effect: final heap plus the
returned value. -/
noncomputable def etfCalcHeap (h : Heap) (c : ℕ) : Heap × Except Reject Record :=
  (etfHeapAfter h c, calculate_grid_metrics (barsAt h c))

/-- The heap effect of `calculate_stock_grid_metrics(df)` on the object
at reference `c` (the equity pipeline writes the same columns; the
trend-slope veto fires between the `MA120` trim and the `前收盘`
writes). -/
def stockHeapAfter (h : Heap) (c : ℕ) : Heap :=
  let s := sortByDate (barsAt h c)
  let a1 := allocH h ⟨s, []⟩
  let h2 := addColH a1.1 a1.2 "成交额" (s.map (fun b => some (turnover b)))
  if (tail20 s).length < 20 then h2
  else if meanQ ((tail20 s).map turnover) < 200000000 then h2
  else
    let h3 := addColH h2 a1.2 "MA120" (maColumnFull s)
    let a2 := allocH h3 (trimmedFrame s)
    if (trim s).length < 120 then a2.1
    else if trendSlopePct (trim s) > 1 / 20 then a2.1
    else
      let h5 := addColH a2.1 a2.2 "前收盘" (prevColInit (trim s))
      let h6 := setColH h5 a2.2 "前收盘" (prevColPatched (trim s))
      addColH h6 a2.2 "日振幅" (ampColumn (trim s))

/-- `calculate_stock_grid_metrics` with its heap effect. -/
noncomputable def stockCalcHeap (h : Heap) (c : ℕ) : Heap × Except Reject Record :=
  (stockHeapAfter h c, calculate_stock_grid_metrics (barsAt h c))

/-- Two successive runs of the ETF pipeline on the same caller
reference, the second reading the heap the first one left. -/
noncomputable def runTwiceETF (h : Heap) (c : ℕ) :
    Except Reject Record × Except Reject Record :=
  ((etfCalcHeap h c).2, (etfCalcHeap (etfCalcHeap h c).1 c).2)

/-- Two successive runs of the equity pipeline on the same caller
reference. -/
noncomputable def runTwiceStock (h : Heap) (c : ℕ) :
    Except Reject Record × Except Reject Record :=
  ((stockCalcHeap h c).2, (stockCalcHeap (stockCalcHeap h c).1 c).2)

lemma updateF_getElem?_ne (h : Heap) (r c : ℕ) (g : Frame → Frame) (hne : r ≠ c) :
    (updateF h r g)[c]? = h[c]? := by
  unfold updateF
  cases h[r]? with
  | none => rfl
  | some f => exact List.getElem?_set_ne hne

lemma addColH_getElem?_ne (h : Heap) (r c : ℕ) (n : String) (v : List (Option ℚ))
    (hne : r ≠ c) : (addColH h r n v)[c]? = h[c]? :=
  updateF_getElem?_ne h r c _ hne

lemma setColH_getElem?_ne (h : Heap) (r c : ℕ) (n : String) (v : List (Option ℚ))
    (hne : r ≠ c) : (setColH h r n v)[c]? = h[c]? :=
  updateF_getElem?_ne h r c _ hne

lemma updateF_length (h : Heap) (r : ℕ) (g : Frame → Frame) :
    (updateF h r g).length = h.length := by
  unfold updateF
  cases h[r]? with
  | none => rfl
  | some f => exact List.length_set h r (g f)

lemma addColH_length (h : Heap) (r : ℕ) (n : String) (v : List (Option ℚ)) :
    (addColH h r n v).length = h.length :=
  updateF_length h r _

lemma append_getElem?_lt (h : Heap) (f : Frame) (c : ℕ) (hc : c < h.length) :
    (h ++ [f])[c]? = h[c]? :=
  List.getElem?_append_left hc

/-- The caller's object is untouched by the ETF pipeline's heap
effect: every write targets one of the two freshly allocated objects. -/
lemma etfHeapAfter_getElem? (h : Heap) (c : ℕ) (hc : c < h.length) :
    (etfHeapAfter h c)[c]? = h[c]? := by
  simp only [etfHeapAfter, allocH]
  split_ifs
  · rw [addColH_getElem?_ne, append_getElem?_lt] <;> omega
  · rw [addColH_getElem?_ne, append_getElem?_lt] <;> omega
  · rw [append_getElem?_lt, addColH_getElem?_ne, addColH_getElem?_ne, append_getElem?_lt]
    all_goals first
      | omega
      | (simp only [addColH_length, List.length_append, List.length_cons, List.length_nil]
         omega)
  · rw [addColH_getElem?_ne, setColH_getElem?_ne, addColH_getElem?_ne, append_getElem?_lt,
      addColH_getElem?_ne, addColH_getElem?_ne, append_getElem?_lt]
    all_goals first
      | omega
      | (simp only [addColH_length, List.length_append, List.length_cons, List.length_nil]
         omega)

/-- The caller's object is untouched by the equity pipeline's heap
effect. -/
lemma stockHeapAfter_getElem? (h : Heap) (c : ℕ) (hc : c < h.length) :
    (stockHeapAfter h c)[c]? = h[c]? := by
  simp only [stockHeapAfter, allocH]
  split_ifs
  · rw [addColH_getElem?_ne, append_getElem?_lt] <;> omega
  · rw [addColH_getElem?_ne, append_getElem?_lt] <;> omega
  · rw [append_getElem?_lt, addColH_getElem?_ne, addColH_getElem?_ne, append_getElem?_lt]
    all_goals first
      | omega
      | (simp only [addColH_length, List.length_append, List.length_cons, List.length_nil]
         omega)
  · rw [append_getElem?_lt, addColH_getElem?_ne, addColH_getElem?_ne, append_getElem?_lt]
    all_goals first
      | omega
      | (simp only [addColH_length, List.length_append, List.length_cons, List.length_nil]
         omega)
  · rw [addColH_getElem?_ne, setColH_getElem?_ne, addColH_getElem?_ne, append_getElem?_lt,
      addColH_getElem?_ne, addColH_getElem?_ne, append_getElem?_lt]
    all_goals first
      | omega
      | (simp only [addColH_length, List.length_append, List.length_cons, List.length_nil]
         omega)

/-- Claim C10: the per-instrument metrics computation leaves the
caller's DataFrame object unchanged: the sort allocates a fresh copy and
every derived-column write targets the fresh objects, so the object the
caller passed in is identical before and after the call, whether a
record is produced or the instrument is disqualified. -/
theorem C10_caller_frame_unchanged (h : Heap) (c : ℕ) (hc : c < h.length) :
    ((etfCalcHeap h c).1)[c]? = h[c]? ∧ ((stockCalcHeap h c).1)[c]? = h[c]? :=
  ⟨etfHeapAfter_getElem? h c hc, stockHeapAfter_getElem? h c hc⟩

/-- Concrete one-object heap for the C10 witness. -/
def C10heap : Heap :=
  [⟨(List.range 21).map (fun i => ⟨i, 5, 6, 4, 5, 7⟩), []⟩]

/-- Witness for C10 at the concrete heap. -/
theorem C10_caller_frame_unchanged_witness :
    ((etfCalcHeap C10heap 0).1)[0]? = C10heap[0]? ∧
      ((stockCalcHeap C10heap 0).1)[0]? = C10heap[0]? :=
  C10_caller_frame_unchanged C10heap 0 (by decide)

/-- Claim C8: running the full per-instrument pipeline twice on the
identical bar sequence yields identical results (score, amplitude,
choppiness, formatted turnover, coefficient of variation, trend slope):
the computation is a deterministic function of the input series, and the
first run leaves the input it read unchanged for the second. -/
theorem C8_pipeline_idempotent (h : Heap) (c : ℕ) (hc : c < h.length) :
    (runTwiceETF h c).1 = (runTwiceETF h c).2 ∧
      (runTwiceStock h c).1 = (runTwiceStock h c).2 := by
  have hbars : barsAt (etfHeapAfter h c) c = barsAt h c := by
    rw [barsAt, barsAt, etfHeapAfter_getElem? h c hc]
  have hbars' : barsAt (stockHeapAfter h c) c = barsAt h c := by
    rw [barsAt, barsAt, stockHeapAfter_getElem? h c hc]
  constructor
  · simp only [runTwiceETF, etfCalcHeap]
    rw [hbars]
  · simp only [runTwiceStock, stockCalcHeap]
    rw [hbars']

/-- Concrete one-object heap for the C8 witness. -/
def C8heap : Heap :=
  [⟨(List.range 25).map (fun i => ⟨i, 3, 4, 2, 3, 11⟩), []⟩]

/-- Witness for C8 at the concrete heap. -/
theorem C8_pipeline_idempotent_witness :
    (runTwiceETF C8heap 0).1 = (runTwiceETF C8heap 0).2 ∧
      (runTwiceStock C8heap 0).1 = (runTwiceStock C8heap 0).2 :=
  C8_pipeline_idempotent C8heap 0 (by decide)

/-!  ## The history-fetch sanitisation boundary (`get_etf_hist_sina_safe`) -/

/-- A raw cell as delivered by the provider, before
`pd.to_numeric(..., errors='coerce')`: numeric, or non-numeric text. -/
inductive Cell where
  | num (q : ℚ)
  | text
deriving Repr, DecidableEq

/-- `pd.to_numeric(col, errors='coerce')` on one cell: non-numeric
becomes missing (`NaN` ↦ `none`). -/
def toNum : Cell → Option ℚ
  | .num q => some q
  | .text => none

/-- One raw row of the provider's history table (dates already in the
`YYYYMMDD` form the code normalises them to, hence `ℕ`). -/
structure RawRow where
  date : ℕ
  openPrice : Cell
  high : Cell
  low : Cell
  close : Cell
  volume : Cell
deriving Repr, DecidableEq

/-- The sanitisation performed by `get_etf_hist_sina_safe`: numeric
coercion, `dropna(subset=['收盘', '成交量'])`, then the
`start_str ≤ 日期 ≤ end_str` window filter. -/
def sanitize (rows : List RawRow) (startD endD : ℕ) : List RawRow :=
  (rows.filter (fun r => (toNum r.close).isSome && (toNum r.volume).isSome)).filter
    (fun r => decide (startD ≤ r.date) && decide (r.date ≤ endD))

/-- `df.sort_values('日期')` as applied to the fetched table at the top
of `calculate_grid_metrics`. -/
def sortRawByDate (l : List RawRow) : List RawRow :=
  List.insertionSort (fun a b => a.date ≤ b.date) l

/-- The sanitized series as the pipeline consumes it: fetched table
sanitised and then date-sorted. -/
def sanitizedSorted (rows : List RawRow) (startD endD : ℕ) : List RawRow :=
  sortRawByDate (sanitize rows startD endD)

instance : IsTotal RawRow (fun a b => a.date ≤ b.date) :=
  ⟨fun a b => Nat.le_total a.date b.date⟩

instance : IsTrans RawRow (fun a b => a.date ≤ b.date) :=
  ⟨fun _ _ _ => Nat.le_trans⟩

/-- A provider table with a duplicated date on which every cell is
numeric: both rows survive sanitisation. -/
def C6rows : List RawRow :=
  [⟨5, .num 1, .num 2, .num 1, .num 1, .num 3⟩,
   ⟨5, .num 1, .num 2, .num 1, .num 2, .num 4⟩]

/-- Counterexample to claim C6 as stated: the sanitizer never
deduplicates dates, so a provider table carrying the same date twice
yields a sanitized series that is *not* strictly increasing by date. -/
theorem C6_counterexample :
    ¬ List.Pairwise (fun a b : RawRow => a.date < b.date)
      (sanitizedSorted C6rows 0 10) := by
  decide

/-- Amended claim C6: the sanitized series always has non-decreasing
dates and no missing close or volume; it is strictly increasing by date
whenever the raw table carries no duplicate date. -/
theorem C6_amended (rows : List RawRow) (startD endD : ℕ) :
    (∀ r ∈ sanitizedSorted rows startD endD,
      (toNum r.close).isSome ∧ (toNum r.volume).isSome) ∧
    List.Pairwise (fun a b : RawRow => a.date ≤ b.date)
      (sanitizedSorted rows startD endD) ∧
    ((rows.map RawRow.date).Nodup →
      List.Pairwise (fun a b : RawRow => a.date < b.date)
        (sanitizedSorted rows startD endD)) := by
  have hperm : List.Perm (sanitizedSorted rows startD endD)
      (sanitize rows startD endD) :=
    List.perm_insertionSort _ _
  have hsorted : List.Pairwise (fun a b : RawRow => a.date ≤ b.date)
      (sanitizedSorted rows startD endD) :=
    List.sorted_insertionSort (fun a b : RawRow => a.date ≤ b.date) _
  refine ⟨?_, hsorted, ?_⟩
  · intro r hr
    have h1 : r ∈ sanitize rows startD endD := hperm.mem_iff.mp hr
    have h2 : r ∈ rows.filter
        (fun r => (toNum r.close).isSome && (toNum r.volume).isSome) :=
      List.mem_of_mem_filter h1
    have h3 := List.of_mem_filter h2
    simp only [Bool.and_eq_true] at h3
    exact ⟨h3.1, h3.2⟩
  · intro hnodup
    have hsub : List.Sublist (sanitize rows startD endD) rows :=
      (List.filter_sublist _).trans (List.filter_sublist _)
    have hnd1 : ((sanitize rows startD endD).map RawRow.date).Nodup :=
      hnodup.sublist (hsub.map RawRow.date)
    have hnd2 : ((sanitizedSorted rows startD endD).map RawRow.date).Nodup :=
      ((hperm.map RawRow.date).nodup_iff).mpr hnd1
    have hne : List.Pairwise (fun a b : RawRow => a.date ≠ b.date)
        (sanitizedSorted rows startD endD) :=
      List.pairwise_map.mp hnd2
    exact (hsorted.and hne).imp (fun h => lt_of_le_of_ne h.1 h.2)

/-- A provider table with distinct dates, one row non-numeric in close
(dropped), one row out of the window (dropped), delivered unsorted. -/
def C6rowsDistinct : List RawRow :=
  [⟨7, .num 1, .num 2, .num 1, .num 1, .num 3⟩,
   ⟨3, .num 1, .num 2, .num 1, .num 2, .num 4⟩,
   ⟨4, .num 1, .num 2, .num 1, .text, .num 4⟩,
   ⟨20, .num 1, .num 2, .num 1, .num 2, .num 4⟩]

/-- Witness for the amended C6 at a concrete distinct-date table. -/
theorem C6_amended_witness :
    List.Pairwise (fun a b : RawRow => a.date < b.date)
      (sanitizedSorted C6rowsDistinct 0 10) :=
  (C6_amended C6rowsDistinct 0 10).2.2 (by decide)

/-!  ## The market-scanner exclusion filter -/

/-- Python `kw in name`: substring containment on the character list. -/
def containsSub (hay needle : List Char) : Bool :=
  hay.tails.any (fun t => needle.isPrefixOf t)

/-- Python `str.strip()`: drop leading and trailing whitespace. -/
def stripWS (s : List Char) : List Char :=
  ((s.dropWhile Char.isWhitespace).reverse.dropWhile Char.isWhitespace).reverse

/-- One row of the instrument universe: code and display name. -/
structure Instr where
  code : List Char
  name : List Char
deriving Repr, DecidableEq

/-- The ETF scan's exclusion keywords
(`["货币", "债", "理财", "黄金", "添益", "快线"]`). -/
def etfKeywords : List (List Char) :=
  ["货币".data, "债".data, "理财".data, "黄金".data, "添益".data, "快线".data]

/-- The equity scan's exclusion keywords (`["ST", "退"]`). -/
def stockKeywords : List (List Char) := ["ST".data, "退".data]

/-- `code.startswith(('8', '4'))`. -/
def startsWith84 (c : List Char) : Bool :=
  match c with
  | [] => false
  | x :: _ => x == '8' || x == '4'

/-- The ETF loop's exclusion test on the stripped display name. -/
def etfExcluded (i : Instr) : Bool :=
  etfKeywords.any (fun kw => containsSub (stripWS i.name) kw)

/-- The equity loop's exclusion test: keyword in stripped name, or
stripped code starting with an excluded venue prefix digit. -/
def stockExcluded (i : Instr) : Bool :=
  stockKeywords.any (fun kw => containsSub (stripWS i.name) kw) ||
    startsWith84 (stripWS i.code)

/-- The instruments for which `scan_etf_for_grid` reaches the history
fetch: the loop `continue`s on the keyword filter before any fetch. -/
def etfFetchTrace (u : List Instr) : List Instr :=
  u.filter (fun i => ! etfExcluded i)

/-- The instruments for which `scan_stocks_for_grid` reaches the
history fetch: at most `MAX_SCAN_COUNT = 5500` rows are visited, and the
loop `continue`s on the keyword/venue filter before any fetch. -/
def stockFetchTrace (u : List Instr) : List Instr :=
  (u.take 5500).filter (fun i => ! stockExcluded i)

lemma isPrefixOf_iff_append : ∀ (a b : List Char),
    a.isPrefixOf b = true ↔ ∃ t, a ++ t = b := by
  intro a
  induction a with
  | nil => intro b; simp [List.isPrefixOf]
  | cons x xs ih =>
    intro b
    cases b with
    | nil => simp [List.isPrefixOf]
    | cons y ys =>
      simp only [List.isPrefixOf, Bool.and_eq_true, beq_iff_eq, ih ys,
        List.cons_append, List.cons.injEq]
      constructor
      · rintro ⟨rfl, t, rfl⟩; exact ⟨t, rfl, rfl⟩
      · rintro ⟨t, rfl, rfl⟩; exact ⟨rfl, t, rfl⟩

lemma containsSub_iff_parts (s kw : List Char) :
    containsSub s kw = true ↔ ∃ u v, u ++ (kw ++ v) = s := by
  simp only [containsSub, List.any_eq_true, List.mem_tails]
  constructor
  · rintro ⟨t, ⟨u, rfl⟩, hp⟩
    obtain ⟨v, rfl⟩ := (isPrefixOf_iff_append kw t).mp hp
    exact ⟨u, v, rfl⟩
  · rintro ⟨u, v, rfl⟩
    exact ⟨kw ++ v, ⟨u, rfl⟩, (isPrefixOf_iff_append kw (kw ++ v)).mpr ⟨v, rfl⟩⟩

lemma containsSub_dropWhileWS (s kw : List Char) (hkw : kw ≠ [])
    (hno : ∀ ch ∈ kw, ch.isWhitespace = false)
    (h : containsSub s kw = true) :
    containsSub (s.dropWhile Char.isWhitespace) kw = true := by
  induction s with
  | nil =>
    obtain ⟨u, v, habs⟩ := (containsSub_iff_parts [] kw).mp h
    rcases u <;> rcases kw <;> simp_all
  | cons x t ih =>
    by_cases hx : x.isWhitespace
    · rw [List.dropWhile_cons_of_pos (by simpa using hx)]
      apply ih
      obtain ⟨u, v, habs⟩ := (containsSub_iff_parts (x :: t) kw).mp h
      cases u with
      | nil =>
        cases kw with
        | nil => exact absurd rfl hkw
        | cons k ks =>
          simp only [List.nil_append, List.cons_append, List.cons.injEq] at habs
          have := hno k (by simp)
          rw [habs.1] at this
          rw [this] at hx
          exact absurd hx (by simp)
      | cons a u' =>
        simp only [List.cons_append, List.cons.injEq] at habs
        exact (containsSub_iff_parts t kw).mpr ⟨u', v, habs.2⟩
    · rw [List.dropWhile_cons_of_neg (by simpa using hx)]
      exact h

lemma containsSub_reverse (s kw : List Char) (h : containsSub s kw = true) :
    containsSub s.reverse kw.reverse = true := by
  obtain ⟨u, v, rfl⟩ := (containsSub_iff_parts _ kw).mp h
  refine (containsSub_iff_parts _ _).mpr ⟨v.reverse, u.reverse, ?_⟩
  simp [List.reverse_append]

lemma containsSub_stripWS (s kw : List Char) (hkw : kw ≠ [])
    (hno : ∀ ch ∈ kw, ch.isWhitespace = false)
    (h : containsSub s kw = true) :
    containsSub (stripWS s) kw = true := by
  have h1 := containsSub_dropWhileWS s kw hkw hno h
  have h2 := containsSub_reverse _ _ h1
  have h3 := containsSub_dropWhileWS _ kw.reverse
    (by simpa using hkw) (fun ch hch => hno ch (List.mem_reverse.mp hch)) h2
  have h4 := containsSub_reverse _ _ h3
  rw [List.reverse_reverse] at h4
  exact h4

lemma etfKeywords_wf : ∀ kw ∈ etfKeywords,
    kw ≠ [] ∧ ∀ ch ∈ kw, ch.isWhitespace = false := by decide

lemma stockKeywords_wf : ∀ kw ∈ stockKeywords,
    kw ≠ [] ∧ ∀ ch ∈ kw, ch.isWhitespace = false := by decide

/-- Claim C7: an instrument whose display name contains a configured
exclusion keyword (or, for equities, whose code starts with an excluded
venue prefix) never reaches the history fetch of the scan loop — the
loop `continue`s before the fetch, so no fetch happens for it in any
run. -/
theorem C7_excluded_never_fetched (u : List Instr) (i : Instr) :
    ((∃ kw ∈ etfKeywords, containsSub i.name kw = true) →
      i ∉ etfFetchTrace u) ∧
    (((∃ kw ∈ stockKeywords, containsSub i.name kw = true) ∨
        startsWith84 (stripWS i.code) = true) →
      i ∉ stockFetchTrace u) := by
  constructor
  · rintro ⟨kw, hkmem, hsub⟩ hmem
    have hwf := etfKeywords_wf kw hkmem
    have hstrip := containsSub_stripWS i.name kw hwf.1 hwf.2 hsub
    have hex : etfExcluded i = true := by
      simp only [etfExcluded, List.any_eq_true]
      exact ⟨kw, hkmem, hstrip⟩
    have hpred := List.of_mem_filter hmem
    rw [hex] at hpred
    exact absurd hpred (by simp)
  · intro hcase hmem
    have hex : stockExcluded i = true := by
      rcases hcase with ⟨kw, hkmem, hsub⟩ | hcode
      · have hwf := stockKeywords_wf kw hkmem
        have hstrip := containsSub_stripWS i.name kw hwf.1 hwf.2 hsub
        simp only [stockExcluded, List.any_eq_true, Bool.or_eq_true]
        exact Or.inl ⟨kw, hkmem, hstrip⟩
      · simp only [stockExcluded, Bool.or_eq_true]
        exact Or.inr hcode
    have hpred := List.of_mem_filter hmem
    rw [hex] at hpred
    exact absurd hpred (by simp)

/-- An ETF universe row whose display name contains the excluded
keyword 货币 (money-market). -/
def C7etfInstr : Instr := ⟨"511990".data, "华夏货币A".data⟩

/-- A small ETF universe containing the excluded instrument. -/
def C7etfUniverse : List Instr :=
  [C7etfInstr, ⟨"510500".data, "中证500ETF".data⟩]

/-- An equity universe row with an excluded venue-prefix code. -/
def C7stockInstr : Instr := ⟨"830001".data, "贝特瑞".data⟩

/-- A small equity universe containing the excluded instrument. -/
def C7stockUniverse : List Instr :=
  [C7stockInstr, ⟨"600519".data, "贵州茅台".data⟩]

/-- Witness for C7 at concrete excluded instruments. -/
theorem C7_excluded_never_fetched_witness :
    C7etfInstr ∉ etfFetchTrace C7etfUniverse ∧
      C7stockInstr ∉ stockFetchTrace C7stockUniverse :=
  ⟨(C7_excluded_never_fetched C7etfUniverse C7etfInstr).1
      ⟨"货币".data, by decide, by decide⟩,
   (C7_excluded_never_fetched C7stockUniverse C7stockInstr).2
      (Or.inr (by decide))⟩

end GridScan
